import Mathlib

/-!
Verification of the Azure blob sink common layer
(`src/sinks/azure_common/config.rs` and `src/sinks/azure_common/service.rs`).

The Rust code is shallowly embedded: pure functions become Lean functions,
the mutation of `take_finalizers` becomes explicit state passing, the
external collaborators (the blob-store provider, the connection-string
parser of the storage library) become function parameters, and the
observability macros (`emit!`) become an explicit list of emitted events
returned beside the result.
-/

namespace AzureCommon

/-! ### Status codes (model of the `http` crate pieces the code uses)

`http::StatusCode::from_u16` accepts exactly the codes in `100..=999`;
`StatusCode::is_server_error` is true exactly on `500..=599`;
`TOO_MANY_REQUESTS` is 429, `FORBIDDEN` is 403, `NOT_FOUND` is 404. -/

namespace StatusCode

/-- `http::StatusCode::from_u16`: valid status codes are 100..=999. -/
def from_u16 (n : Nat) : Option Nat :=
  if 100 ≤ n ∧ n ≤ 999 then some n else none

/-- `StatusCode::is_server_error`: 5xx. -/
def is_server_error (s : Nat) : Bool :=
  decide (500 ≤ s ∧ s ≤ 599)

end StatusCode

/-! ### Data model (`config.rs`) -/

/-- `EventFinalizers`: an ordered collection of opaque finalizer handles.
`std::mem::take` replaces it with its default, the empty collection. -/
abbrev EventFinalizers := List Nat

/-- `AzureBlobMetadata` (`config.rs` lines 38-44). -/
structure AzureBlobMetadata where
  partition_key : String
  count : Nat
  byte_size : Nat
  finalizers : EventFinalizers
deriving Repr, DecidableEq

/-- `AzureBlobRequest` (`config.rs` lines 18-24); `blob_data: Bytes` is a
byte sequence. -/
structure AzureBlobRequest where
  blob_data : List Nat
  content_encoding : Option String
  content_type : String
  metadata : AzureBlobMetadata
deriving Repr, DecidableEq

/-- `impl Ackable for AzureBlobRequest` (`config.rs` lines 26-30). -/
def AzureBlobRequest.ack_size (r : AzureBlobRequest) : Nat :=
  r.metadata.count

/-- `impl Finalizable for AzureBlobRequest` (`config.rs` lines 32-36):
`std::mem::take(&mut self.metadata.finalizers)`, rendered as state passing:
the returned pair is (taken finalizers, request afterwards). -/
def AzureBlobRequest.take_finalizers (r : AzureBlobRequest) :
    EventFinalizers × AzureBlobRequest :=
  (r.metadata.finalizers, { r with metadata := { r.metadata with finalizers := [] } })

/-- `PutBlockBlobResponse`: the opaque success payload returned by the
storage library; its fields are irrelevant here. -/
structure PutBlockBlobResponse where
  etag : String
deriving Repr, DecidableEq

/-- `AzureBlobResponse` (`config.rs` lines 68-73). -/
structure AzureBlobResponse where
  inner : PutBlockBlobResponse
  count : Nat
  events_byte_size : Nat
deriving Repr, DecidableEq

/-- `vector_core` `EventStatus` (the variants relevant to this code). -/
inductive EventStatus
  | Delivered
  | Errored
  | Rejected
  | Dropped
deriving Repr, DecidableEq

/-- `vector_core` `EventsSent` internal-event payload. -/
structure EventsSent where
  count : Nat
  byte_size : Nat
  output : Option String
deriving Repr, DecidableEq

/-- `impl DriverResponse for AzureBlobResponse`, `event_status`
(`config.rs` lines 76-78). -/
def AzureBlobResponse.event_status (_ : AzureBlobResponse) : EventStatus :=
  EventStatus.Delivered

/-- `impl DriverResponse for AzureBlobResponse`, `events_sent`
(`config.rs` lines 80-86). -/
def AzureBlobResponse.events_sent (r : AzureBlobResponse) : EventsSent :=
  { count := r.count, byte_size := r.events_byte_size, output := none }

/-! ### Retry logic (`config.rs` lines 46-66) -/

/-- `azure_core::error::HttpError`: carries a raw `u16` transport status
(`error.status()`) and the error text. -/
structure HttpError where
  status : Nat
  text : String
deriving Repr, DecidableEq

/-- `vector` `RetryAction`. -/
inductive RetryAction
  | Retry (reason : String)
  | DontRetry (reason : String)
  | Successful
deriving Repr, DecidableEq

/-- `AzureBlobRetryLogic::is_retriable_error` (`config.rs` lines 53-60). -/
def AzureBlobRetryLogic.is_retriable_error (error : HttpError) : Bool :=
  match StatusCode.from_u16 error.status with
  | some status => StatusCode.is_server_error status || status == 429
  | none => false

/-- `AzureBlobRetryLogic::should_retry_response` (`config.rs` lines 62-65). -/
def AzureBlobRetryLogic.should_retry_response (_ : AzureBlobResponse) : RetryAction :=
  RetryAction.Successful

/-! ### Healthcheck (`config.rs` lines 89-124) -/

/-- The error produced by the probe's `get_properties` call: either an
error downcastable to `HttpError` (with its raw `u16` status), or any
other error with its display text. -/
inductive ProbeError
  | http (status : Nat) (text : String)
  | other (text : String)
deriving Repr, DecidableEq

/-- `HealthcheckError` (`config.rs` lines 89-97). -/
inductive HealthcheckError
  | InvalidCredentials
  | UnknownContainer (container : String)
  | Unknown (status : Nat)
deriving Repr, DecidableEq

/-- The boxed `crate::Result` error the healthcheck future returns: a
`HealthcheckError`, a plain string (`"unknown status code".into()`), or
the original probe error propagated as-is (`reason.into()`). -/
inductive CrateError
  | healthcheck (e : HealthcheckError)
  | text (msg : String)
  | propagated (reason : ProbeError)
deriving Repr, DecidableEq

/-- `build_healthcheck` (`config.rs` lines 99-124): the classification the
produced future performs on the outcome `request` of
`client.get_properties()`. The `Ok(StatusCode::FORBIDDEN)` /
`Ok(StatusCode::NOT_FOUND)` / `Ok(status)` arms are first-match, rendered
as nested conditionals. -/
def build_healthcheck (container_name : String)
    (request : Except ProbeError Unit) : Except CrateError Unit :=
  match request with
  | .ok _ => .ok ()
  | .error reason =>
    .error <|
      match reason with
      | .http status _ =>
        match StatusCode.from_u16 status with
        | some s =>
          if s = 403 then .healthcheck .InvalidCredentials
          else if s = 404 then .healthcheck (.UnknownContainer container_name)
          else .healthcheck (.Unknown s)
        | none => .text "unknown status code"
      | .other _ => .propagated reason

/-! ### Client construction (`config.rs` lines 126-162) -/

/-- The credential mode baked into a `StorageAccountClient`. -/
inductive ClientAuth
  | sharedSecret (connection_string : String)
  | token (storage_account : String)
deriving Repr, DecidableEq

/-- `StorageAccountClient`: an authenticated handle to a storage account. -/
structure StorageAccountClient where
  auth : ClientAuth
deriving Repr, DecidableEq

/-- `ContainerClient`: the namespace handle, a storage-account client
scoped to one container. -/
structure ContainerClient where
  account : StorageAccountClient
  container_name : String
deriving Repr, DecidableEq

/-- The error of `build_client`: in Rust both variants are the same boxed
type, but they are distinguishable by provenance: the two explicit
`return Err(...)` sites (configuration errors), and the error forwarded by
the `?` on `StorageAccountClient::new_connection_string`. -/
inductive BuildClientError
  | configuration (msg : String)
  | connectionString (msg : String)
deriving Repr, DecidableEq

/-- `build_client` (`config.rs` lines 126-162).
`StorageAccountClient::new_connection_string` parses the connection string
in the external storage library and is fallible (the source applies `?` to
it); it is passed in as the parameter `new_connection_string`.
`StorageAccountClient::new_token_credential` is infallible. -/
def build_client
    (new_connection_string : String → Except String StorageAccountClient)
    (connection_string : Option String) (storage_account : Option String)
    (container_name : String) : Except BuildClientError ContainerClient :=
  match connection_string, storage_account with
  | some connection_string_p, none =>
    match new_connection_string connection_string_p with
    | .ok account => .ok { account := account, container_name := container_name }
    | .error e => .error (.connectionString e)
  | none, some storage_account_p =>
    .ok { account := { auth := .token storage_account_p }, container_name := container_name }
  | none, none =>
    .error (.configuration "Either `connection_string` or `storage_account` has to be provided")
  | some _, some _ =>
    .error (.configuration "`connection_string` and `storage_account` can't be provided at the same time")

/-! ### Delivery service (`service.rs`) -/

/-- The upload request handed to the storage library: blob client scoped
to `partition_key`, payload, content type, optional content encoding. -/
structure PutBlockBlobRequest where
  partition_key : String
  blob_data : List Nat
  content_type : String
  content_encoding : Option String
deriving Repr, DecidableEq

/-- The boxed error of a failed upload: either downcastable to `HttpError`
(with its raw `u16` status) or any other error with its display text. -/
inductive UploadError
  | http (status : Nat) (text : String)
  | other (text : String)
deriving Repr, DecidableEq

/-- The internal events `call` can emit: `AzureBlobResponseError` (from
the raw transport status), `AzureBlobHttpError` (error text), `BytesSent`. -/
inductive InternalEvent
  | azureBlobResponseError (status : Nat)
  | azureBlobHttpError (error : String)
  | bytesSent (byte_size : Nat) (protocol : String)
deriving Repr, DecidableEq

/-- The upload request `call` builds (`service.rs` lines 40-51): blob
client from `metadata.partition_key`, payload, `content_type`, and the
`content_encoding` if present. -/
def AzureBlobRequest.to_put_block_blob (request : AzureBlobRequest) : PutBlockBlobRequest :=
  { partition_key := request.metadata.partition_key
    blob_data := request.blob_data
    content_type := request.content_type
    content_encoding := request.content_encoding }

/-- `AzureBlobService::call` (`service.rs` lines 39-80). The provider (the
storage library performing the PUT) is a parameter; the result is paired
with the list of internal events emitted by the `inspect_err` /
`inspect_ok` hooks. On failure the original boxed error is propagated
as-is by `map_err(|err| err.into())`. -/
def AzureBlobService.call
    (provider : PutBlockBlobRequest → Except UploadError PutBlockBlobResponse)
    (request : AzureBlobRequest) :
    Except UploadError AzureBlobResponse × List InternalEvent :=
  let byte_size := request.blob_data.length
  match provider request.to_put_block_blob with
  | .error reason =>
    (.error reason,
      match reason with
      | .http status _ => [.azureBlobResponseError status]
      | .other text => [.azureBlobHttpError text])
  | .ok inner =>
    (.ok { inner := inner, count := request.metadata.count,
           events_byte_size := request.metadata.byte_size },
      [.bytesSent byte_size "https"])

end AzureCommon

namespace AzureCommon

/-! ### Concrete fixtures for witnesses and counterexamples -/

/-- The end-to-end request of the spec's example, except with a short
payload so that the payload length (3) and `metadata.byte_size` (1024)
visibly differ. -/
def sampleRequest : AzureBlobRequest :=
  { blob_data := [104, 105, 33]
    content_encoding := none
    content_type := "text/plain"
    metadata :=
      { partition_key := "2024/01/01/part-0.log"
        count := 50
        byte_size := 1024
        finalizers := [7, 8] } }

/-- A provider that accepts every upload. -/
def providerOk : PutBlockBlobRequest → Except UploadError PutBlockBlobResponse :=
  fun _ => .ok { etag := "etag-1" }

/-- A provider that fails every upload with HTTP 503. -/
def providerHttp503 : PutBlockBlobRequest → Except UploadError PutBlockBlobResponse :=
  fun _ => .error (.http 503 "service unavailable")

/-- A provider that fails every upload with a non-HTTP error. -/
def providerOther : PutBlockBlobRequest → Except UploadError PutBlockBlobResponse :=
  fun _ => .error (.other "connection reset")

/-- A connection-string parser that accepts every input. -/
def parse_connection_string_ok : String → Except String StorageAccountClient :=
  fun s => .ok { auth := .sharedSecret s }

/-- A connection-string parser that rejects every input, as the external
storage library does on malformed connection strings. -/
def parse_connection_string_fails : String → Except String StorageAccountClient :=
  fun _ => .error "unable to parse connection string"

end AzureCommon

open AzureCommon

/-! ### Claims -/

/-- C1: for every request whose upload succeeds, `AzureBlobService.call`
returns a response whose `count` and `events_byte_size` fields equal the
`count` and `byte_size` of the request's metadata, copied verbatim. -/
theorem C1_deliver_copies_ack_metadata
    (provider : PutBlockBlobRequest → Except UploadError PutBlockBlobResponse)
    (request : AzureBlobRequest) (response : AzureBlobResponse)
    (h : (AzureBlobService.call provider request).1 = .ok response) :
    response.count = request.metadata.count ∧
    response.events_byte_size = request.metadata.byte_size := by
  cases hp : provider request.to_put_block_blob with
  | error e =>
    simp [AzureBlobService.call, hp] at h
  | ok inner =>
    simp [AzureBlobService.call, hp] at h
    subst h
    exact ⟨rfl, rfl⟩

/-- C1 witness: a provider that accepts the upload of `sampleRequest`
(event count 50, byte size 1024) yields a response with count 50 and byte
size 1024. -/
theorem C1_witness :
    ({ inner := { etag := "etag-1" }, count := 50, events_byte_size := 1024 }
        : AzureBlobResponse).count = sampleRequest.metadata.count ∧
    ({ inner := { etag := "etag-1" }, count := 50, events_byte_size := 1024 }
        : AzureBlobResponse).events_byte_size = sampleRequest.metadata.byte_size :=
  C1_deliver_copies_ack_metadata providerOk sampleRequest _ rfl

/-- C2: `is_retriable_error` is true iff the raw status parses as a valid
status code (100..=999) and that status is a server error (5xx) or 429;
false for every other parseable status and for unparseable statuses. In
particular it is true for 429, 500, 503 and false for 400, 403, 404. -/
theorem C2_is_retriable_error_iff :
    (∀ (error : HttpError),
      AzureBlobRetryLogic.is_retriable_error error = true ↔
        ((100 ≤ error.status ∧ error.status ≤ 999) ∧
          ((500 ≤ error.status ∧ error.status ≤ 599) ∨ error.status = 429))) ∧
    (∀ t, AzureBlobRetryLogic.is_retriable_error { status := 429, text := t } = true) ∧
    (∀ t, AzureBlobRetryLogic.is_retriable_error { status := 500, text := t } = true) ∧
    (∀ t, AzureBlobRetryLogic.is_retriable_error { status := 503, text := t } = true) ∧
    (∀ t, AzureBlobRetryLogic.is_retriable_error { status := 400, text := t } = false) ∧
    (∀ t, AzureBlobRetryLogic.is_retriable_error { status := 403, text := t } = false) ∧
    (∀ t, AzureBlobRetryLogic.is_retriable_error { status := 404, text := t } = false) := by
  refine ⟨?_, fun t => rfl, fun t => rfl, fun t => rfl, fun t => rfl, fun t => rfl, fun t => rfl⟩
  intro error
  unfold AzureBlobRetryLogic.is_retriable_error StatusCode.from_u16 StatusCode.is_server_error
  by_cases hc : 100 ≤ error.status ∧ error.status ≤ 999
  · simp only [hc, if_pos, and_true, true_and]
    simp
  · simp only [hc, if_neg, not_false_iff]
    simp

/-- C3 counterexample: with a connection string that the external storage
library's parser rejects, exactly one credential input is present and yet
`build_client` propagates the parse error (through `?`) instead of
returning a handle, so "returns a namespace handle iff exactly one input
is present" fails. -/
theorem C3_counterexample :
    (Option.some "BadConnectionString").isSome = true ∧
    (Option.none : Option String).isSome = false ∧
    build_client parse_connection_string_fails (some "BadConnectionString") none "logs" =
      .error (.connectionString "unable to parse connection string") :=
  ⟨rfl, rfl, rfl⟩

/-- C3 (amended): `build_client` returns a configuration error iff both
credential inputs are present or both are absent; with only
`storage_account` it returns a token-credential handle; with only
`connection_string` it returns a shared-secret handle exactly when the
external connection-string parser accepts the input, and propagates the
parse error otherwise. -/
theorem C3_build_client_credential_modes
    (ncs : String → Except String StorageAccountClient)
    (connection_string storage_account : Option String) (container_name : String) :
    ((∃ msg, build_client ncs connection_string storage_account container_name =
        .error (.configuration msg)) ↔
      ((connection_string.isSome ∧ storage_account.isSome) ∨
        (connection_string.isNone ∧ storage_account.isNone))) ∧
    (∀ sa, storage_account = some sa → connection_string = none →
      build_client ncs connection_string storage_account container_name =
        .ok { account := { auth := .token sa }, container_name := container_name }) ∧
    (∀ cs account, connection_string = some cs → storage_account = none →
      ncs cs = .ok account →
      build_client ncs connection_string storage_account container_name =
        .ok { account := account, container_name := container_name }) ∧
    (∀ cs e, connection_string = some cs → storage_account = none →
      ncs cs = .error e →
      build_client ncs connection_string storage_account container_name =
        .error (.connectionString e)) := by
  refine ⟨?_, ?_, ?_, ?_⟩
  · cases connection_string with
    | none =>
      cases storage_account with
      | none => simp [build_client]
      | some sa => simp [build_client]
    | some cs =>
      cases storage_account with
      | none =>
        cases hn : ncs cs with
        | ok account => simp [build_client, hn]
        | error e => simp [build_client, hn]
      | some sa => simp [build_client]
  · intro sa hsa hcs
    subst hsa; subst hcs
    rfl
  · intro cs account hcs hsa hn
    subst hcs; subst hsa
    simp [build_client, hn]
  · intro cs e hcs hsa hn
    subst hcs; subst hsa
    simp [build_client, hn]

/-- C3 witness: with only `storage_account` present, `build_client`
returns the token-credential handle for that account and container. -/
theorem C3_witness :
    build_client parse_connection_string_ok none (some "myaccount") "logs" =
      .ok { account := { auth := .token "myaccount" }, container_name := "logs" } :=
  (C3_build_client_credential_modes parse_connection_string_ok none
    (some "myaccount") "logs").2.1 "myaccount" rfl rfl

/-- C4: the healthcheck maps any probe success to Ok; an HTTP error with
status 403 to `InvalidCredentials`; status 404 to `UnknownContainer` with
the configured container name; any other parseable status `s` to
`Unknown s`; and a non-HTTP error is propagated as-is. -/
theorem C4_healthcheck_classification (container_name t msg : String) (s : Nat)
    (hlo : 100 ≤ s) (hhi : s ≤ 999) (h403 : s ≠ 403) (h404 : s ≠ 404) :
    build_healthcheck container_name (.ok ()) = .ok () ∧
    build_healthcheck container_name (.error (.http 403 t)) =
      .error (.healthcheck .InvalidCredentials) ∧
    build_healthcheck container_name (.error (.http 404 t)) =
      .error (.healthcheck (.UnknownContainer container_name)) ∧
    build_healthcheck container_name (.error (.http s t)) =
      .error (.healthcheck (.Unknown s)) ∧
    build_healthcheck container_name (.error (.other msg)) =
      .error (.propagated (.other msg)) := by
  refine ⟨rfl, rfl, rfl, ?_, rfl⟩
  have hv : StatusCode.from_u16 s = some s := by
    simp [StatusCode.from_u16, hlo, hhi]
  simp [build_healthcheck, hv, h403, h404]

/-- C4 witness: probing a container with an HTTP 500 failure yields
`Unknown 500` (the 403/404/other/success cases are instantiated by the
same application). -/
theorem C4_witness :
    build_healthcheck "a-container" (.error (.http 500 "err")) =
      .error (.healthcheck (.Unknown 500)) :=
  (C4_healthcheck_classification "a-container" "err" "m" 500
    (by decide) (by decide) (by decide) (by decide)).2.2.2.1

/-- C5: taking finalizers from a request returns the original collection
and leaves the request's finalizers empty; taking a second time returns
the empty collection and leaves the request unchanged. -/
theorem C5_take_finalizers_exactly_once (r : AzureBlobRequest) :
    (r.take_finalizers).1 = r.metadata.finalizers ∧
    (r.take_finalizers).2.metadata.finalizers = ([] : EventFinalizers) ∧
    ((r.take_finalizers).2.take_finalizers).1 = ([] : EventFinalizers) ∧
    ((r.take_finalizers).2.take_finalizers).2 = (r.take_finalizers).2 :=
  ⟨rfl, rfl, rfl, rfl⟩

/-- C6: when the upload fails with an error carrying a numeric transport
status, `call` emits a status-tagged `AzureBlobResponseError` and
propagates the error as-is (the HTTP-classified error with that status);
otherwise it emits `AzureBlobHttpError` with the error text and propagates
the other-classified error with that text. -/
theorem C6_call_error_classification
    (provider : PutBlockBlobRequest → Except UploadError PutBlockBlobResponse)
    (request : AzureBlobRequest) :
    (∀ status t, provider request.to_put_block_blob = .error (.http status t) →
      AzureBlobService.call provider request =
        (.error (.http status t), [.azureBlobResponseError status])) ∧
    (∀ t, provider request.to_put_block_blob = .error (.other t) →
      AzureBlobService.call provider request =
        (.error (.other t), [.azureBlobHttpError t])) := by
  constructor
  · intro status t h
    simp [AzureBlobService.call, h]
  · intro t h
    simp [AzureBlobService.call, h]

/-- C6 witness: a provider failing with HTTP 503 makes `call` emit
`AzureBlobResponseError 503` and return that HTTP error; a provider
failing without a status makes `call` emit `AzureBlobHttpError` with the
text and return that other error. -/
theorem C6_witness :
    AzureBlobService.call providerHttp503 sampleRequest =
      (.error (.http 503 "service unavailable"), [.azureBlobResponseError 503]) ∧
    AzureBlobService.call providerOther sampleRequest =
      (.error (.other "connection reset"), [.azureBlobHttpError "connection reset"]) :=
  ⟨(C6_call_error_classification providerHttp503 sampleRequest).1 503 "service unavailable" rfl,
   (C6_call_error_classification providerOther sampleRequest).2 "connection reset" rfl⟩

/-- C7: every `AzureBlobResponse` reports event status Delivered, and for
every request the ack size used for finalizer notification equals the
request's event count (`metadata.count`). -/
theorem C7_delivered_and_ack_size
    (response : AzureBlobResponse) (request : AzureBlobRequest) :
    response.event_status = EventStatus.Delivered ∧
    request.ack_size = request.metadata.count :=
  ⟨rfl, rfl⟩

/-- C8: `should_retry_response` returns Successful ("no retry") on every
response; it never inspects the response. -/
theorem C8_should_retry_always_successful (response : AzureBlobResponse) :
    AzureBlobRetryLogic.should_retry_response response = RetryAction.Successful :=
  rfl

/-- C9: on a successful upload the only event `call` emits is `BytesSent`
with the length of the request's payload bytes — not the `byte_size` field
of the metadata — and the transport scheme "https". -/
theorem C9_bytes_sent_payload_length
    (provider : PutBlockBlobRequest → Except UploadError PutBlockBlobResponse)
    (request : AzureBlobRequest) (inner : PutBlockBlobResponse)
    (h : provider request.to_put_block_blob = .ok inner) :
    (AzureBlobService.call provider request).2 =
      [InternalEvent.bytesSent request.blob_data.length "https"] := by
  simp [AzureBlobService.call, h]

/-- C9 witness: `sampleRequest` has a 3-byte payload but
`metadata.byte_size = 1024`; on success the emitted `BytesSent` carries 3,
the payload length. -/
theorem C9_witness :
    (AzureBlobService.call providerOk sampleRequest).2 =
      [InternalEvent.bytesSent 3 "https"] ∧
    sampleRequest.metadata.byte_size = 1024 :=
  ⟨C9_bytes_sent_payload_length providerOk sampleRequest { etag := "etag-1" } rfl, rfl⟩

/-- C10: an HTTP probe error whose raw status does not parse as a valid
status code makes the healthcheck return the plain text error
"unknown status code", not a `HealthcheckError` and not the original
error. -/
theorem C10_unparseable_status_text (container_name t : String) (s : Nat)
    (h : ¬(100 ≤ s ∧ s ≤ 999)) :
    build_healthcheck container_name (.error (.http s t)) =
      .error (.text "unknown status code") := by
  simp [build_healthcheck, StatusCode.from_u16, h]

/-- C10 witness: a raw status of 1000 is outside 100..=999, so the
healthcheck yields the "unknown status code" text error. -/
theorem C10_witness :
    build_healthcheck "another-container" (.error (.http 1000 "boom")) =
      .error (.text "unknown status code") :=
  C10_unparseable_status_text "another-container" "boom" 1000 (by decide)
